import Mathlib

/-!
Verification of the BLE credential-provisioning module (`src/provisioning.cpp`).

The development shallowly embeds the module:

* the pure credential parser (`parseCredentials` and its helpers `isWhitespace`,
  `trim`) is translated to functions on `List Char` / `String`;
* the session state machine (globals `g_initialized`, `g_sessionActive`,
  `g_centralConnected`, `g_connId`, `g_restartAdvertising`, `g_deviceId`,
  `g_callback`, plus the presence of the BLE server / characteristic /
  advertising handles) becomes the record `Session`; each operation
  (`begin`, `startBle`, `stopBle`, `isActive`, `notifyStatus`, `loop`) and each
  BLE-stack event handler (`onConnect`, `onDisconnect`, `onWrite`) becomes an
  explicit state-passing function that also returns the list of calls made into
  the external BLE stack (`Effect`).

Environment inputs are made explicit: `BLEDevice::getAdvertising()` may return
null, so the operations that call it take a boolean `env` saying whether an
advertising handle is obtainable; the credentials callback (a `std::function`)
is modelled opaquely as an `Option Nat` identifier; the connection id supplied
by the stack on connect is a `Nat` argument.
-/

namespace Provisioning

/-! ## Credential parser (provisioning.cpp lines 29-84) -/

/-- `isWhitespace` from the source: CR, LF, TAB or space. -/
def isWhitespace (c : Char) : Bool :=
  c == '\r' || c == '\n' || c == '\t' || c == ' '

/-- One-sided trimming: drop leading characters while they are whitespace.
Models the first `while` loop of `trim`. -/
def trimLeading : List Char → List Char
  | [] => []
  | c :: rest => if isWhitespace c then trimLeading rest else c :: rest

/-- `trim` from the source: erase leading whitespace, then trailing whitespace
(the second loop pops from the back, modelled by trimming the reversal). -/
def trim (text : List Char) : List Char :=
  ((trimLeading ((trimLeading text).reverse)).reverse)

/-- Result struct of the parser; fields default exactly as the C++
`ParsedCredentials` value-initializes them. -/
structure ParsedCredentials where
  valid : Bool := false
  ssid : String := ""
  password : String := ""
  error : String := ""
  deriving DecidableEq, Repr

/-- `String(xs.c_str())`: copying a `std::string` through its C string
truncates at the first NUL byte. -/
def cStringOf (l : List Char) : List Char :=
  l.takeWhile (fun c => c != Char.ofNat 0)

/-- Tail of `parseCredentials` after the separator split (lines 69-83):
trim both parts, reject an empty SSID, otherwise build the success value
through `String(….c_str())`. -/
def finishParse (ssidPart passwordPart : List Char) : ParsedCredentials :=
  let ssid := trim ssidPart
  let password := trim passwordPart
  if ssid = [] then { error := "ssid" }
  else { valid := true, ssid := String.mk (cStringOf ssid),
         password := String.mk (cStringOf password) }

/-- `parseCredentials` on the byte sequence (lines 49-84): reject empty input,
strip every CR, split at the first LF, else at the first `|`, else reject. -/
def parseCredentialsList (raw : List Char) : ParsedCredentials :=
  if raw = [] then { error := "vacio" }
  else
    let payload := raw.filter (fun c => c != '\r')
    if '\n' ∈ payload then
      finishParse (payload.takeWhile (fun c => c != '\n'))
        ((payload.dropWhile (fun c => c != '\n')).tail)
    else if '|' ∈ payload then
      finishParse (payload.takeWhile (fun c => c != '|'))
        ((payload.dropWhile (fun c => c != '|')).tail)
    else { error := "formato" }

/-- `parseCredentials` on a `String` payload. -/
def parseCredentials (raw : String) : ParsedCredentials :=
  parseCredentialsList raw.data

/-- The specification's `trim(A)` on whole strings (same whitespace set). -/
def trimString (s : String) : String :=
  String.mk (trim s.data)

/-! ## Session state machine (provisioning.cpp lines 14-228)

The module's globals become the fields of `Session`; calls into the external
BLE stack become entries of the `Effect` trace that every operation returns
alongside the new state. -/

/-- `kInvalidConnId = 0xFFFF`. -/
def kInvalidConnId : Nat := 0xFFFF

/-- Calls the module makes into the external BLE stack. -/
inductive Effect where
  /-- `g_advertising->start()` -/
  | advStart
  /-- `g_advertising->stop()` -/
  | advStop
  /-- `setAdvertisementData` with the device name (tail of `configureAdvertising`) -/
  | configureAdv (deviceId : String)
  /-- `g_server->createService` + characteristic creation (`ensureInitialized`) -/
  | createService
  /-- `g_server->disconnect(connId)` -/
  | disconnect (connId : Nat)
  /-- `g_characteristic->setValue(msg)` -/
  | setValue (msg : String)
  /-- `g_characteristic->notify()` pushing `msg` to the connected central -/
  | notifyPeer (msg : String)
  /-- invocation of the registered application callback -/
  | invokeCallback (cb : Nat) (ssid : String) (password : String)
  deriving DecidableEq, Repr

/-- The module's global state. `serverSet`, `characteristicSet` and
`advertising` record whether `g_server`, `g_characteristic` and
`g_advertising` are non-null; `charValue` is the characteristic's stored
value (meaningful once `characteristicSet`); `callback` is the opaque
identity of the registered `std::function` (`none` = empty). -/
structure Session where
  initialized : Bool
  sessionActive : Bool
  centralConnected : Bool
  connId : Nat
  restartAdvertising : Bool
  deviceId : String
  callback : Option Nat
  serverSet : Bool
  characteristicSet : Bool
  advertising : Bool
  charValue : String
  deriving DecidableEq, Repr

/-- The zero-valued state at process start (all globals null/false,
`g_connId = kInvalidConnId`). -/
def initialSession : Session :=
  { initialized := false, sessionActive := false, centralConnected := false,
    connId := kInvalidConnId, restartAdvertising := false, deviceId := "",
    callback := none, serverSet := false, characteristicSet := false,
    advertising := false, charValue := "" }

/-- `notify` (lines 86-94): no-op without a characteristic; otherwise store the
value and additionally push a notification when a central is connected. -/
def notify (s : Session) (msg : String) : Session × List Effect :=
  if s.characteristicSet then
    ({ s with charValue := msg },
      Effect.setValue msg ::
        (if s.centralConnected then [Effect.notifyPeer msg] else []))
  else (s, [])

/-- `configureAdvertising` (lines 129-146): obtain the advertising handle if
absent (`env` says whether `BLEDevice::getAdvertising()` yields one); bail out
when still absent; otherwise install the advertisement payload. -/
def configureAdvertising (s : Session) (env : Bool) : Session × List Effect :=
  let s1 := if s.advertising then s else { s with advertising := env }
  if s1.advertising then (s1, [Effect.configureAdv s1.deviceId]) else (s1, [])

/-- `ensureInitialized` (lines 148-179): once initialized, only refresh
`deviceId` and the advertising payload; on first call create the server,
service and characteristic (initial value `"inactivo"`), obtain the
advertising handle, configure advertising and mark `initialized`. -/
def ensureInitialized (s : Session) (deviceId : String) (env : Bool) :
    Session × List Effect :=
  if s.initialized then
    configureAdvertising { s with deviceId := deviceId } env
  else
    let s1 := { s with
                  deviceId := deviceId,
                  serverSet := true,
                  characteristicSet := true,
                  charValue := "inactivo",
                  advertising := env }
    let r := configureAdvertising s1 env
    ({ r.1 with initialized := true },
      Effect.createService :: Effect.setValue "inactivo" :: r.2)

/-- `begin` (lines 182-186): store the callback, run `ensureInitialized`,
send `"inactivo"`. -/
def begin (s : Session) (deviceId : String) (cb : Option Nat) (env : Bool) :
    Session × List Effect :=
  let r1 := ensureInitialized { s with callback := cb } deviceId env
  let r2 := notify r1.1 "inactivo"
  (r2.1, r1.2 ++ r2.2)

/-- `startBle` (lines 188-199): fail when uninitialized or no advertising
handle; otherwise reconfigure, start advertising, send `"activo"`, set
`sessionActive`, clear the restart flag, return `true`. -/
def startBle (s : Session) : Session × List Effect × Bool :=
  if !s.initialized || !s.advertising then (s, [], false)
  else
    let r1 := configureAdvertising s s.advertising
    let r2 := notify r1.1 "activo"
    ({ r2.1 with sessionActive := true, restartAdvertising := false },
      r1.2 ++ [Effect.advStart] ++ r2.2, true)

/-- `stopBle` (lines 201-217): no-op when uninitialized; otherwise stop
advertising (if a handle exists), actively disconnect a connected central via
the stored handle, clear `sessionActive` and the restart flag, send
`"inactivo"`. -/
def stopBle (s : Session) : Session × List Effect :=
  if !s.initialized then (s, [])
  else
    let eff1 := if s.advertising then [Effect.advStop] else []
    let eff2 :=
      if s.centralConnected && s.serverSet && (s.connId != kInvalidConnId)
      then [Effect.disconnect s.connId] else []
    let r := notify
      { s with
          sessionActive := false,
          restartAdvertising := false } "inactivo"
    (r.1, eff1 ++ eff2 ++ r.2)

/-- `isActive` (line 219). -/
def isActive (s : Session) : Bool := s.sessionActive

/-- `notifyStatus` (line 221). -/
def notifyStatus (s : Session) (msg : String) : Session × List Effect :=
  notify s msg

/-- `loop` (lines 223-228): when a restart is pending, the session is active
and an advertising handle exists, clear the flag and restart advertising. -/
def loop (s : Session) : Session × List Effect :=
  if s.restartAdvertising && s.sessionActive && s.advertising then
    ({ s with restartAdvertising := false }, [Effect.advStart])
  else (s, [])

/-- `ServerCallbacks::onConnect` (lines 115-118): record the connection and the
stack-supplied connection id. -/
def onConnect (s : Session) (cid : Nat) : Session :=
  { s with centralConnected := true, connId := cid }

/-- `ServerCallbacks::onDisconnect` (lines 120-126): clear the connection
fields; schedule an advertising restart when the session is active. -/
def onDisconnect (s : Session) : Session :=
  { s with
      centralConnected := false,
      connId := kInvalidConnId,
      restartAdvertising := if s.sessionActive then true else s.restartAdvertising }

/-- `ProvisioningCallbacks::onWrite` (lines 97-111): parse the written payload;
on failure notify `"error:"+reason`; on success notify `"credenciales"` and,
only if a callback is registered, invoke it with the parsed credentials. -/
def onWrite (s : Session) (payload : String) : Session × List Effect :=
  let credentials := parseCredentials payload
  if !credentials.valid then
    notify s ("error:" ++ credentials.error)
  else
    let r := notify s "credenciales"
    match s.callback with
    | some cb =>
        (r.1, r.2 ++ [Effect.invokeCallback cb credentials.ssid credentials.password])
    | none => (r.1, r.2)

/-- States reachable from the zero-valued initial state by the module's
operations and by the BLE-stack event handlers. The stack hands `onConnect` a
genuine connection handle, which is never the sentinel `kInvalidConnId`. -/
inductive Reachable : Session → Prop where
  | init : Reachable initialSession
  | beginStep {s : Session} (d : String) (cb : Option Nat) (env : Bool) :
      Reachable s → Reachable (begin s d cb env).1
  | startStep {s : Session} : Reachable s → Reachable (startBle s).1
  | stopStep {s : Session} : Reachable s → Reachable (stopBle s).1
  | loopStep {s : Session} : Reachable s → Reachable (loop s).1
  | notifyStep {s : Session} (m : String) :
      Reachable s → Reachable (notifyStatus s m).1
  | connectStep {s : Session} (cid : Nat) (hcid : cid ≠ kInvalidConnId) :
      Reachable s → Reachable (onConnect s cid)
  | disconnectStep {s : Session} : Reachable s → Reachable (onDisconnect s)
  | writeStep {s : Session} (payload : String) :
      Reachable s → Reachable (onWrite s payload).1

/-! ## Concrete sample states (used to instantiate the theorems) -/

/-- State after a first `begin` with an advertising handle available. -/
def readySession : Session := (begin initialSession "device" (some 1) true).1

/-- State after a first `begin` when `getAdvertising` yields no handle. -/
def readyNoAdv : Session := (begin initialSession "device" (some 1) false).1

/-- State after a first `begin` that registered no callback. -/
def freshNoCallback : Session := (begin initialSession "device" none true).1

/-- State after `begin` followed by a successful `startBle`. -/
def activeSession : Session := (startBle readySession).1

/-- Active state after the stack reported a central connecting with id 3. -/
def connectedSession : Session := onConnect activeSession 3

/-! ## Helper lemmas about the parser -/

theorem mem_trimLeading {a : Char} :
    ∀ {l : List Char}, a ∈ trimLeading l → a ∈ l
  | [], h => h
  | c :: rest, h => by
      by_cases hc : isWhitespace c
      · exact List.mem_cons_of_mem c (mem_trimLeading (by simpa [trimLeading, hc] using h))
      · simpa [trimLeading, hc] using h

theorem mem_trim {a : Char} {l : List Char} (h : a ∈ trim l) : a ∈ l := by
  unfold trim at h
  exact mem_trimLeading (List.mem_reverse.mp (mem_trimLeading (List.mem_reverse.mp h)))

theorem takeWhile_append_cons (p : Char → Bool) (A : List Char) (c : Char)
    (B : List Char) (hA : ∀ a ∈ A, p a = true) (hc : p c = false) :
    (A ++ c :: B).takeWhile p = A := by
  induction A with
  | nil => simp [hc]
  | cons a as ih =>
      have ha : p a = true := hA a (List.mem_cons_self a as)
      simp only [List.cons_append, List.takeWhile_cons_of_pos ha]
      rw [ih (fun x hx => hA x (List.mem_cons_of_mem a hx))]

theorem dropWhile_append_cons (p : Char → Bool) (A : List Char) (c : Char)
    (B : List Char) (hA : ∀ a ∈ A, p a = true) (hc : p c = false) :
    (A ++ c :: B).dropWhile p = c :: B := by
  induction A with
  | nil => simp [hc]
  | cons a as ih =>
      have ha : p a = true := hA a (List.mem_cons_self a as)
      simp only [List.cons_append, List.dropWhile_cons_of_pos ha]
      exact ih (fun x hx => hA x (List.mem_cons_of_mem a hx))

theorem cStringOf_eq_self {l : List Char} (h : Char.ofNat 0 ∉ l) :
    cStringOf l = l :=
  List.takeWhile_eq_self_iff.mpr
    (fun a ha => bne_iff_ne.mpr (fun e => h (e ▸ ha)))

/-- Splitting behaviour of the parser on a payload with an explicit first
newline, when no carriage returns interfere. -/
theorem parse_split_at_newline (A B : List Char)
    (hA_lf : '\n' ∉ A) (hA_cr : '\r' ∉ A) (hB_cr : '\r' ∉ B) :
    parseCredentialsList (A ++ '\n' :: B) = finishParse A B := by
  have hne : A ++ '\n' :: B ≠ [] := by simp
  have hfilter : (A ++ '\n' :: B).filter (fun c => c != '\r') = A ++ '\n' :: B := by
    apply List.filter_eq_self.mpr
    intro a ha
    apply bne_iff_ne.mpr
    intro e
    subst e
    rcases List.mem_append.mp ha with h | h
    · exact hA_cr h
    · rcases List.mem_cons.mp h with h | h
      · exact absurd h (by decide)
      · exact hB_cr h
  have hmem : '\n' ∈ A ++ '\n' :: B := by simp
  have htake : (A ++ '\n' :: B).takeWhile (fun c => c != '\n') = A :=
    takeWhile_append_cons _ A '\n' B
      (fun a ha => bne_iff_ne.mpr (fun e => hA_lf (e ▸ ha))) (by decide)
  have hdrop : (A ++ '\n' :: B).dropWhile (fun c => c != '\n') = '\n' :: B :=
    dropWhile_append_cons _ A '\n' B
      (fun a ha => bne_iff_ne.mpr (fun e => hA_lf (e ▸ ha))) (by decide)
  simp only [parseCredentialsList, if_neg hne, hfilter, if_pos hmem, htake, hdrop,
    List.tail_cons]

/-! ## Claims about the credential parser -/

/-- Claim C1 (counterexample). The claim "for every payload `A\nB` with
`trim(A)` non-empty, parse succeeds with `ssid = trim(A)`, `password =
trim(B)`" is false as stated, in three independent ways: a newline inside `A`
makes the parser split earlier; an interior carriage return inside `A` is
stripped from the parsed SSID but not by `trim`; an interior NUL inside `A`
truncates the parsed SSID when it is copied through `String(….c_str())`. -/
theorem claimC1_counterexample :
    (trimString "x\ny" ≠ "" ∧
      (parseCredentials ("x\ny" ++ "\n" ++ "z")).ssid ≠ trimString "x\ny") ∧
    (trimString "a\rb" ≠ "" ∧
      (parseCredentials ("a\rb" ++ "\n" ++ "c")).ssid ≠ trimString "a\rb") ∧
    (trimString "a\x00b" ≠ "" ∧
      (parseCredentials ("a\x00b" ++ "\n" ++ "c")).ssid ≠ trimString "a\x00b") := by
  decide

/-- Claim C1 (amended). For every payload of the form `A\nB` where `A`
contains no newline, neither `A` nor `B` contains a carriage return or a NUL
character, and `A` trimmed of whitespace is non-empty, `parseCredentials`
succeeds (`valid = true`) with `ssid = trim(A)` and `password = trim(B)`;
the password may be empty. -/
theorem claimC1_amended (A B : String)
    (hA_lf : '\n' ∉ A.data) (hA_cr : '\r' ∉ A.data)
    (hA_nul : Char.ofNat 0 ∉ A.data)
    (hB_cr : '\r' ∉ B.data) (hB_nul : Char.ofNat 0 ∉ B.data)
    (hA_ne : trimString A ≠ "") :
    parseCredentials (A ++ "\n" ++ B) =
      { valid := true, ssid := trimString A, password := trimString B,
        error := "" } := by
  have hdata : (A ++ "\n" ++ B).data = A.data ++ '\n' :: B.data := by
    rw [String.data_append, String.data_append]
    have hnl : ("\n" : String).data = ['\n'] := rfl
    rw [hnl, List.append_assoc]
    rfl
  have htrim : trim A.data ≠ [] := by
    intro e
    exact hA_ne (by simp [trimString, e])
  unfold parseCredentials
  rw [hdata, parse_split_at_newline A.data B.data hA_lf hA_cr hB_cr]
  unfold finishParse
  simp only [if_neg htrim]
  rw [cStringOf_eq_self (fun h => hA_nul (mem_trim h)),
    cStringOf_eq_self (fun h => hB_nul (mem_trim h))]
  rfl

/-- Witness for `claimC1_amended` at the concrete payload `"home\n pw "`. -/
theorem claimC1_witness :
    parseCredentials ("home" ++ "\n" ++ " pw ") =
      { valid := true, ssid := trimString "home", password := trimString " pw ",
        error := "" } :=
  claimC1_amended "home" " pw " (by decide) (by decide) (by decide) (by decide)
    (by decide) (by decide)

/-- Claim C2. The parser selects the separator by first looking for a newline
and falling back to the first `|` only when no newline exists:
`parse("home\nfirst|second")` succeeds with `ssid = "home"` and
`password = "first|second"` (a pipe after a newline stays in the password), and
`parse("home|hunter2")` succeeds with `ssid = "home"`, `password = "hunter2"`. -/
theorem claimC2_separator_priority :
    parseCredentials "home\nfirst|second" =
      { valid := true, ssid := "home", password := "first|second", error := "" } ∧
    parseCredentials "home|hunter2" =
      { valid := true, ssid := "home", password := "hunter2", error := "" } := by
  decide

/-- Claim C3. Parse failures carry exactly one typed error, in the spec's
priority order: the empty input fails with `Empty` (`"vacio"`); a non-empty
input containing neither a newline nor a `|` fails with `Format`
(`"formato"`); an input with a separator whose SSID part trims to empty fails
with `MissingSsid` (`"ssid"`), e.g. `parse("  \n secret")`. -/
theorem claimC3_error_taxonomy :
    parseCredentials "" = { error := "vacio" } ∧
    (∀ p : String, p ≠ "" → '\n' ∉ p.data → '|' ∉ p.data →
      parseCredentials p = { error := "formato" }) ∧
    parseCredentials "  \n secret" = { error := "ssid" } := by
  refine ⟨by decide, ?_, by decide⟩
  intro p hne hlf hpipe
  obtain ⟨l⟩ := p
  have hl : l ≠ [] := by
    intro e
    subst e
    exact hne rfl
  have hlf2 : '\n' ∉ l.filter (fun c => c != '\r') :=
    fun h => hlf (List.mem_of_mem_filter h)
  have hpipe2 : '|' ∉ l.filter (fun c => c != '\r') :=
    fun h => hpipe (List.mem_of_mem_filter h)
  simp only [parseCredentials, parseCredentialsList, if_neg hl, if_neg hlf2,
    if_neg hpipe2]

/-- Witness for the quantified part of `claimC3_error_taxonomy`, at the
concrete separator-free payload `"abc"`. -/
theorem claimC3_witness :
    parseCredentials "abc" = { error := "formato" } :=
  claimC3_error_taxonomy.2.1 "abc" (by decide) (by decide) (by decide)

/-! ## Session-machine invariants -/

/-- Invariant maintained by every operation and event handler: an active
session is initialized and owns an advertising handle, and a connected
central has a genuine (non-sentinel) connection id. -/
def SessionInvariant (s : Session) : Prop :=
  (s.sessionActive = true → s.initialized = true) ∧
  (s.sessionActive = true → s.advertising = true) ∧
  (s.centralConnected = true → s.connId ≠ kInvalidConnId)

theorem initial_invariant : SessionInvariant initialSession := by
  simp [SessionInvariant, initialSession]

theorem begin_invariant (s : Session) (d : String) (cb : Option Nat)
    (env : Bool) (h : SessionInvariant s) :
    SessionInvariant (begin s d cb env).1 := by
  obtain ⟨h1, h2, h3⟩ := h
  obtain ⟨ini, act, conn, cid, rst, dev, cb0, srv, ch, adv, cv⟩ := s
  simp only [SessionInvariant] at *
  cases ini <;> cases adv <;> cases ch <;> cases conn <;> cases env <;>
    simp_all [begin, ensureInitialized, configureAdvertising, notify]

theorem startBle_invariant (s : Session) (h : SessionInvariant s) :
    SessionInvariant (startBle s).1 := by
  obtain ⟨h1, h2, h3⟩ := h
  obtain ⟨ini, act, conn, cid, rst, dev, cb0, srv, ch, adv, cv⟩ := s
  simp only [SessionInvariant] at *
  cases ini <;> cases adv <;> cases ch <;> cases conn <;>
    simp_all [startBle, configureAdvertising, notify]

theorem stopBle_invariant (s : Session) (h : SessionInvariant s) :
    SessionInvariant (stopBle s).1 := by
  obtain ⟨h1, h2, h3⟩ := h
  obtain ⟨ini, act, conn, cid, rst, dev, cb0, srv, ch, adv, cv⟩ := s
  simp only [SessionInvariant] at *
  cases ini <;> cases adv <;> cases ch <;> cases conn <;>
    simp_all [stopBle, notify]

theorem loop_invariant (s : Session) (h : SessionInvariant s) :
    SessionInvariant (loop s).1 := by
  obtain ⟨h1, h2, h3⟩ := h
  obtain ⟨ini, act, conn, cid, rst, dev, cb0, srv, ch, adv, cv⟩ := s
  simp only [SessionInvariant] at *
  cases rst <;> cases act <;> cases adv <;> simp_all [loop]

theorem notifyStatus_invariant (s : Session) (m : String)
    (h : SessionInvariant s) : SessionInvariant (notifyStatus s m).1 := by
  obtain ⟨h1, h2, h3⟩ := h
  obtain ⟨ini, act, conn, cid, rst, dev, cb0, srv, ch, adv, cv⟩ := s
  simp only [SessionInvariant] at *
  cases ch <;> cases conn <;> simp_all [notifyStatus, notify]

theorem onConnect_invariant (s : Session) (cid : Nat)
    (hcid : cid ≠ kInvalidConnId) (h : SessionInvariant s) :
    SessionInvariant (onConnect s cid) := by
  obtain ⟨h1, h2, h3⟩ := h
  exact ⟨h1, h2, fun _ => by simpa [onConnect] using hcid⟩

theorem onDisconnect_invariant (s : Session) (h : SessionInvariant s) :
    SessionInvariant (onDisconnect s) := by
  obtain ⟨h1, h2, h3⟩ := h
  exact ⟨h1, h2, by simp [onDisconnect]⟩

theorem onWrite_invariant (s : Session) (payload : String)
    (h : SessionInvariant s) : SessionInvariant (onWrite s payload).1 := by
  obtain ⟨h1, h2, h3⟩ := h
  obtain ⟨ini, act, conn, cid, rst, dev, cb0, srv, ch, adv, cv⟩ := s
  simp only [SessionInvariant] at *
  cases hv : (parseCredentials payload).valid <;> cases cb0 <;> cases ch <;>
    cases conn <;> simp_all [onWrite, notify]

/-- Every reachable state satisfies the invariant. -/
theorem reachable_invariant {s : Session} (h : Reachable s) :
    SessionInvariant s := by
  induction h with
  | init => exact initial_invariant
  | beginStep d cb env _ ih => exact begin_invariant _ d cb env ih
  | startStep _ ih => exact startBle_invariant _ ih
  | stopStep _ ih => exact stopBle_invariant _ ih
  | loopStep _ ih => exact loop_invariant _ ih
  | notifyStep m _ ih => exact notifyStatus_invariant _ m ih
  | connectStep cid hcid _ ih => exact onConnect_invariant _ cid hcid ih
  | disconnectStep _ ih => exact onDisconnect_invariant _ ih
  | writeStep payload _ ih => exact onWrite_invariant _ payload ih

/-! ## Claims about the session state machine -/

/-- Claim C4. If a disconnect event occurs while the session is active (in any
reachable such state), the pending-restart flag is set and the next `loop`
call restarts advertising exactly once, clearing the flag; a further `loop`
call performs no restart and leaves the state unchanged. -/
theorem claimC4_disconnect_restart (s : Session) (hr : Reachable s)
    (hact : isActive s = true) :
    (onDisconnect s).restartAdvertising = true ∧
    (loop (onDisconnect s)).2 = [Effect.advStart] ∧
    (loop (onDisconnect s)).1.restartAdvertising = false ∧
    (loop (loop (onDisconnect s)).1).2 = [] ∧
    (loop (loop (onDisconnect s)).1).1 = (loop (onDisconnect s)).1 := by
  have hadv : s.advertising = true := (reachable_invariant hr).2.1 hact
  have hact2 : s.sessionActive = true := hact
  refine ⟨?_, ?_, ?_, ?_, ?_⟩ <;> simp [onDisconnect, loop, hact2, hadv]

/-- Witness for `claimC4_disconnect_restart` at the concrete reachable active
state `activeSession`. -/
theorem claimC4_witness :
    (onDisconnect activeSession).restartAdvertising = true ∧
    (loop (onDisconnect activeSession)).2 = [Effect.advStart] ∧
    (loop (onDisconnect activeSession)).1.restartAdvertising = false ∧
    (loop (loop (onDisconnect activeSession)).1).2 = [] ∧
    (loop (loop (onDisconnect activeSession)).1).1 =
      (loop (onDisconnect activeSession)).1 :=
  claimC4_disconnect_restart activeSession
    (Reachable.startStep (Reachable.beginStep "device" (some 1) true
      Reachable.init))
    (by decide)

/-- Claim C5. After any `startBle` call that returns `true`, `isActive`
returns `true`; after any `stopBle` call on an initialized session,
`isActive` returns `false`, regardless of whether a central was connected
beforehand. -/
theorem claimC5_start_stop_active (s : Session) :
    ((startBle s).2.2 = true → isActive (startBle s).1 = true) ∧
    (s.initialized = true → isActive (stopBle s).1 = false) := by
  obtain ⟨ini, act, conn, cid, rst, dev, cb0, srv, ch, adv, cv⟩ := s
  cases ini <;> cases adv <;> cases ch <;> cases conn <;>
    simp_all [startBle, stopBle, configureAdvertising, notify, isActive]

/-- Witness for `claimC5_start_stop_active` at the concrete initialized state
`readySession`, on which `startBle` returns `true`. -/
theorem claimC5_witness :
    isActive (startBle readySession).1 = true ∧
    isActive (stopBle readySession).1 = false :=
  ⟨(claimC5_start_stop_active readySession).1 (by decide),
   (claimC5_start_stop_active readySession).2 (by decide)⟩

/-- Claim C6 (counterexample). Calling `begin` a second time does alter the
previously registered credentials callback: `begin` unconditionally stores the
newly passed callback, so after `begin(initial, "device", cb₁)` followed by
`begin(·, "device2", cb₂)` the registered callback is `cb₂`, not `cb₁`. -/
theorem claimC6_counterexample :
    readySession.initialized = true ∧
    (begin readySession "device2" (some 2) true).1.callback ≠
      readySession.callback := by
  decide

/-- Claim C6 (amended). Calling `begin` a second or later time (after
initialization) updates the device ID and the advertising payload and replaces
the stored credentials callback with the newly passed one; it does not
re-create the GATT service and leaves all other session state (`initialized`,
`sessionActive`, `centralConnected`, `connId`, `restartAdvertising`,
`serverSet`, `characteristicSet`) unchanged. -/
theorem claimC6_amended (s : Session) (d : String) (cb : Option Nat)
    (env : Bool) (hinit : s.initialized = true) :
    Effect.createService ∉ (begin s d cb env).2 ∧
    (begin s d cb env).1.deviceId = d ∧
    (begin s d cb env).1.callback = cb ∧
    (begin s d cb env).1.initialized = true ∧
    (begin s d cb env).1.sessionActive = s.sessionActive ∧
    (begin s d cb env).1.centralConnected = s.centralConnected ∧
    (begin s d cb env).1.connId = s.connId ∧
    (begin s d cb env).1.restartAdvertising = s.restartAdvertising ∧
    (begin s d cb env).1.serverSet = s.serverSet ∧
    (begin s d cb env).1.characteristicSet = s.characteristicSet := by
  obtain ⟨ini, act, conn, cid, rst, dev, cb0, srv, ch, adv, cv⟩ := s
  cases ini
  · exact absurd hinit (by simp)
  · cases adv <;> cases ch <;> cases conn <;> cases env <;>
      simp_all [begin, ensureInitialized, configureAdvertising, notify]

/-- Witness for `claimC6_amended`: re-running `begin` on the initialized state
`readySession` with a new device id and callback. -/
theorem claimC6_witness :
    Effect.createService ∉ (begin readySession "device2" (some 2) true).2 ∧
    (begin readySession "device2" (some 2) true).1.deviceId = "device2" ∧
    (begin readySession "device2" (some 2) true).1.callback = some 2 ∧
    (begin readySession "device2" (some 2) true).1.initialized = true ∧
    (begin readySession "device2" (some 2) true).1.sessionActive =
      readySession.sessionActive ∧
    (begin readySession "device2" (some 2) true).1.centralConnected =
      readySession.centralConnected ∧
    (begin readySession "device2" (some 2) true).1.connId =
      readySession.connId ∧
    (begin readySession "device2" (some 2) true).1.restartAdvertising =
      readySession.restartAdvertising ∧
    (begin readySession "device2" (some 2) true).1.serverSet =
      readySession.serverSet ∧
    (begin readySession "device2" (some 2) true).1.characteristicSet =
      readySession.characteristicSet :=
  claimC6_amended readySession "device2" (some 2) true (by decide)

/-- Claim C7. `stopBle` called while a central is connected (with the session
initialized and the BLE handles present) stops advertising, actively
terminates the connection using the stored connection handle, and then sets
the status to `"inactivo"`; once the stack delivers the resulting disconnect
event, the connection handle is invalidated. -/
theorem claimC7_stop_disconnects (s : Session)
    (hinit : s.initialized = true) (hconn : s.centralConnected = true)
    (hsrv : s.serverSet = true) (hadv : s.advertising = true)
    (hch : s.characteristicSet = true) (hid : s.connId ≠ kInvalidConnId) :
    (stopBle s).2 = [Effect.advStop, Effect.disconnect s.connId,
      Effect.setValue "inactivo", Effect.notifyPeer "inactivo"] ∧
    (stopBle s).1.charValue = "inactivo" ∧
    (onDisconnect (stopBle s).1).centralConnected = false ∧
    (onDisconnect (stopBle s).1).connId = kInvalidConnId := by
  refine ⟨?_, ?_, ?_, ?_⟩ <;>
    simp [stopBle, notify, onDisconnect, hinit, hconn, hsrv, hadv, hch, hid]

/-- Witness for `claimC7_stop_disconnects` at the concrete connected state
`connectedSession` (connection id 3). -/
theorem claimC7_witness :
    (stopBle connectedSession).2 = [Effect.advStop, Effect.disconnect
      connectedSession.connId, Effect.setValue "inactivo",
      Effect.notifyPeer "inactivo"] ∧
    (stopBle connectedSession).1.charValue = "inactivo" ∧
    (onDisconnect (stopBle connectedSession).1).centralConnected = false ∧
    (onDisconnect (stopBle connectedSession).1).connId = kInvalidConnId :=
  claimC7_stop_disconnects connectedSession (by decide) (by decide)
    (by decide) (by decide) (by decide) (by decide)

/-- Claim C9. `startBle` requires the session to be initialized, and when the
advertising handle is unavailable it returns `false` with no side effects at
all: the state is unchanged and no call is made into the BLE stack. -/
theorem claimC9_start_no_side_effects (s : Session) :
    (s.initialized = false → startBle s = (s, [], false)) ∧
    (s.advertising = false → startBle s = (s, [], false)) := by
  constructor <;> intro h <;> simp [startBle, h]

/-- Witness for `claimC9_start_no_side_effects`: the uninitialized initial
state, and the initialized state `readyNoAdv` whose advertising handle could
not be obtained. -/
theorem claimC9_witness :
    startBle initialSession = (initialSession, [], false) ∧
    startBle readyNoAdv = (readyNoAdv, [], false) :=
  ⟨(claimC9_start_no_side_effects initialSession).1 (by decide),
   (claimC9_start_no_side_effects readyNoAdv).2 (by decide)⟩

/-- Claim C10. When a write payload parses successfully but no credentials
callback is registered, the write handler still notifies `"credenciales"`
(storing it on the characteristic, pushing to the peer only if connected) and
returns normally: the callback invocation is guarded and an unset callback is
never invoked. -/
theorem claimC10_unset_callback (s : Session) (p : String)
    (hvalid : (parseCredentials p).valid = true)
    (hcb : s.callback = none) (hch : s.characteristicSet = true) :
    (onWrite s p).2 = Effect.setValue "credenciales" ::
      (if s.centralConnected then [Effect.notifyPeer "credenciales"]
       else []) ∧
    (∀ cb ss pw, Effect.invokeCallback cb ss pw ∉ (onWrite s p).2) := by
  have h1 : (onWrite s p).2 = Effect.setValue "credenciales" ::
      (if s.centralConnected then [Effect.notifyPeer "credenciales"]
       else []) := by
    simp [onWrite, notify, hvalid, hcb, hch]
  refine ⟨h1, ?_⟩
  intro cb ss pw hmem
  rw [h1] at hmem
  cases hc : s.centralConnected <;> simp [hc] at hmem

/-- Witness for `claimC10_unset_callback` on the callback-free state
`freshNoCallback` and the valid payload `"ap\npw"`. -/
theorem claimC10_witness :
    (onWrite freshNoCallback "ap\npw").2 = Effect.setValue "credenciales" ::
      (if freshNoCallback.centralConnected then
        [Effect.notifyPeer "credenciales"] else []) ∧
    (∀ cb ss pw,
      Effect.invokeCallback cb ss pw ∉ (onWrite freshNoCallback "ap\npw").2) :=
  claimC10_unset_callback freshNoCallback "ap\npw" (by decide) (by decide)
    (by decide)

/-- Claim C8. In every state reachable from the initial zero-valued session by
the module's operations and event handlers, a connected central implies the
stored connection handle is set (`g_connId ≠ kInvalidConnId`). -/
theorem claimC8_connected_implies_connId (s : Session) (hr : Reachable s)
    (hc : s.centralConnected = true) : s.connId ≠ kInvalidConnId :=
  (reachable_invariant hr).2.2 hc

/-- Witness for `claimC8_connected_implies_connId` at the concrete reachable
connected state `connectedSession`. -/
theorem claimC8_witness : connectedSession.connId ≠ kInvalidConnId :=
  claimC8_connected_implies_connId connectedSession
    (Reachable.connectStep 3 (by decide)
      (Reachable.startStep (Reachable.beginStep "device" (some 1) true
        Reachable.init)))
    (by decide)

end Provisioning
